import Mathlib

/-!
Shallow embedding of the `fruity` bridging layer:

* `src/core_foundation/cf_type.rs` — the `CFType` ownership wrapper: its
  `ObjectType` impl (`retain`/`release` forwarding to `CFRetain`/`CFRelease`),
  its `PartialEq` impl (forwarding to `CFEqual`), its `Hash` impl (feeding the
  `CFHash` surrogate into the hasher), and the inherent `retain_count`,
  `hash` and `get_type_id` methods.
* `src/foundation/ns_error/recovery_attempting.rs` — the
  `NSErrorRecoveryAttempting` capability-probed dispatcher:
  `attempt_recovery` (synchronous, returns `bool`) and
  `attempt_recovery_with` (notifying variant, returns `()`), both of which
  probe `responds_to_selector` before any `_msg_send_with`.

The foreign runtime (Core Foundation / Objective-C) is external to the crate;
it appears here as an explicit environment (`CFEnv`, `ObjCEnv`) and as traces
of foreign calls, so that "performs no foreign call" and "exactly one
increment" are statable facts about the produced trace.
-/

/-- A foreign object address (the raw pointer value of a handle). -/
abbrev Addr := Nat

/-- A selector (message identifier); `selector!` interns a literal string. -/
abbrev Sel := String

/-! ## Core Foundation: reference-counting calls and their effect on counts -/

/-- One reference-count-mutating foreign call issued by the wrapper. -/
inductive CFCall where
  | cfRetain (a : Addr)
  | cfRelease (a : Addr)
  deriving DecidableEq, Repr

/-- The effect of one foreign call on the per-address retain counts
(spec interface: `retain(handle)` is count +1, `release(handle)` is count -1). -/
def applyCall (counts : Addr → Nat) : CFCall → (Addr → Nat)
  | CFCall.cfRetain a => fun x => if x = a then counts x + 1 else counts x
  | CFCall.cfRelease a => fun x => if x = a then counts x - 1 else counts x

/-- The effect of a trace of foreign calls on the per-address retain counts. -/
def applyCalls (counts : Addr → Nat) : List CFCall → (Addr → Nat)
  | [] => counts
  | c :: cs => applyCalls (applyCall counts c) cs

/-- The `Arc<CFType>` smart pointer: it records only the raw address it owns. -/
structure Arc where
  addr : Addr
  deriving DecidableEq, Repr

/-- Modelled from the spec: the `sys::CFRetain` binding (declared outside
`src/`) — `retain(handle) -> handle` returns the same address with count +1.
The returned address plus the emitted foreign call. -/
def sys.CFRetain (a : Addr) : Addr × List CFCall := (a, [CFCall.cfRetain a])

/-- Modelled from the spec: the `sys::CFRelease` binding (declared outside
`src/`) — `release(handle)` is count -1, destroying the object at zero. -/
def sys.CFRelease (a : Addr) : List CFCall := [CFCall.cfRelease a]

/-- Modelled from the spec: `Arc::from_raw` (in `crate::core`, outside `src/`)
is the "adopt" constructor — it wraps an owned address and performs no
increment. -/
def Arc.from_raw (a : Addr) : Arc := ⟨a⟩

/-- Source `CFType::retain` (cf_type.rs:31-33):
`unsafe { Arc::from_raw(sys::CFRetain(obj)) }` — issue one `CFRetain` on the
borrowed handle and adopt the returned (same) address. Returns the new owning
wrapper together with the trace of foreign calls performed. -/
def CFType.retain (a : Addr) : Arc × List CFCall :=
  let r := sys.CFRetain a
  (Arc.from_raw r.1, r.2)

/-- Source `CFType::release` (cf_type.rs:37-39): `sys::CFRelease(obj.as_ptr())`. -/
def CFType.release (a : Addr) : List CFCall := sys.CFRelease a

/-! ## One-object reference-count state machine

For the refcount round-trip property the wrapper operations on a single
foreign object are abstracted to their foreign effect: `CFType::retain` and
`Arc::clone` each issue one `CFRetain` (count +1), dropping a wrapper issues
one `CFRelease` (count -1, destruction at zero). -/

/-- The foreign runtime state of one object: its retain count and whether the
runtime has destroyed it (which it does when the count reaches zero). -/
structure FObj where
  count : Nat
  destroyed : Bool
  deriving DecidableEq, Repr

/-- Foreign `CFRetain` on the one object: count +1. -/
def FObj.retainStep (s : FObj) : FObj := { s with count := s.count + 1 }

/-- Foreign `CFRelease` on the one object: count -1, destruction at zero. -/
def FObj.releaseStep (s : FObj) : FObj :=
  if s.count ≤ 1 then { count := 0, destroyed := true }
  else { s with count := s.count - 1 }

/-- A wrapper operation in a retain/clone/drop sequence. -/
inductive RCOp where
  | retainOp
  | cloneOp
  | dropOp
  deriving DecidableEq, Repr

/-- The foreign effect of one wrapper operation: `CFType::retain` issues one
`CFRetain`; `Arc::clone` issues one `CFRetain` (modelled from the spec:
`clone` in `crate::core`, outside `src/`, "increments and returns a second
independent wrapper"); dropping a wrapper issues one `CFRelease` via
`CFType::release`. -/
def RCOp.apply (s : FObj) : RCOp → FObj
  | RCOp.retainOp => s.retainStep
  | RCOp.cloneOp => s.retainStep
  | RCOp.dropOp => s.releaseStep

/-- Run a sequence of wrapper operations against the one-object state. -/
def runOps (s : FObj) : List RCOp → FObj
  | [] => s
  | op :: ops => runOps (RCOp.apply s op) ops

/-- Number of `retain` operations in a sequence. -/
def nRetains : List RCOp → Nat
  | [] => 0
  | RCOp.retainOp :: ops => nRetains ops + 1
  | _ :: ops => nRetains ops

/-- Number of `clone` operations in a sequence. -/
def nClones : List RCOp → Nat
  | [] => 0
  | RCOp.cloneOp :: ops => nClones ops + 1
  | _ :: ops => nClones ops

/-- Number of `drop` operations in a sequence. -/
def nDrops : List RCOp → Nat
  | [] => 0
  | RCOp.dropOp :: ops => nDrops ops + 1
  | _ :: ops => nDrops ops

/-- A sequence is executable by safe Rust code holding `a` live wrappers:
every operation needs a live wrapper to call it on (`retain` borrows one,
`clone` borrows one, `drop` consumes one); `retain`/`clone` yield one more
wrapper, `drop` one fewer. -/
def validSeq : Nat → List RCOp → Bool
  | _, [] => true
  | a, RCOp.retainOp :: ops => decide (0 < a) && validSeq (a + 1) ops
  | a, RCOp.cloneOp :: ops => decide (0 < a) && validSeq (a + 1) ops
  | a, RCOp.dropOp :: ops => decide (0 < a) && validSeq (a - 1) ops

/-- Source `CFType::retain_count` (cf_type.rs:83-85): forwards `CFGetRetainCount`,
which reports the object's current retain count. -/
def CFType.retain_count (s : FObj) : Nat := s.count

theorem validSeq_zero_nil : ∀ ops : List RCOp, validSeq 0 ops = true → ops = [] := by
  intro ops h
  cases ops with
  | nil => rfl
  | cons op rest => cases op <;> simp [validSeq] at h

theorem runOps_invariant : ∀ (ops : List RCOp) (a n : Nat),
    validSeq a ops = true → a ≤ n → 0 < n →
    (runOps ⟨n, false⟩ ops).count + nDrops ops = n + nRetains ops + nClones ops
    ∧ ((runOps ⟨n, false⟩ ops).destroyed ↔ (runOps ⟨n, false⟩ ops).count = 0) := by
  intro ops
  induction ops with
  | nil =>
    intro a n _ _ hn
    simp [runOps, nDrops, nRetains, nClones]
    omega
  | cons op rest ih =>
    intro a n hv ha hn
    cases op with
    | retainOp =>
      simp [validSeq] at hv
      have h := ih (a + 1) (n + 1) hv.2 (by omega) (by omega)
      simp only [runOps, RCOp.apply, FObj.retainStep, nDrops, nRetains, nClones]
      refine ⟨by omega, h.2⟩
    | cloneOp =>
      simp [validSeq] at hv
      have h := ih (a + 1) (n + 1) hv.2 (by omega) (by omega)
      simp only [runOps, RCOp.apply, FObj.retainStep, nDrops, nRetains, nClones]
      refine ⟨by omega, h.2⟩
    | dropOp =>
      simp [validSeq] at hv
      by_cases hone : n ≤ 1
      · have hn1 : n = 1 := by omega
        have harest : a = 1 := by omega
        have hrest : rest = [] := by
          apply validSeq_zero_nil
          have := hv.2
          rw [harest] at this
          simpa using this
        subst hrest hn1
        simp [runOps, RCOp.apply, FObj.releaseStep, nDrops, nRetains, nClones]
      · have h := ih (a - 1) (n - 1) hv.2 (by omega) (by omega)
        simp only [runOps, RCOp.apply, FObj.releaseStep, if_neg hone]
        simp only [nDrops, nRetains, nClones]
        refine ⟨by omega, h.2⟩

/-! ## Core Foundation: equality, hashing, type identity -/

/-- The foreign runtime environment for the value-level `CFType` primitives
(spec interface: `equal(a, b) -> bool` is a nonzero `Boolean`, `hash(handle)
-> integer`, `get_type_id(handle) -> integer`). -/
structure CFEnv where
  cfEqual : Addr → Addr → Nat
  cfHash : Addr → Nat
  cfGetTypeID : Addr → Nat

/-- Source `impl PartialEq for CFType` (cf_type.rs:53-59):
`unsafe { sys::CFEqual(self, other) != 0 }`. -/
def CFType.eq (env : CFEnv) (a b : Addr) : Bool := env.cfEqual a b != 0

/-- Source `CFType::hash` (cf_type.rs:91-93): forwards `CFHash` unchanged — the
foreign hash surrogate. -/
def CFType.hashSurrogate (env : CFEnv) (a : Addr) : Nat := env.cfHash a

/-- Source `CFType::get_type_id` (cf_type.rs:98-100): forwards `CFGetTypeID`
unchanged. -/
def CFType.get_type_id (env : CFEnv) (a : Addr) : Nat := env.cfGetTypeID a

/-- Source `impl hash::Hash for CFType` (cf_type.rs:61-66):
`self.hash().hash(state)` — the bytes fed to the hasher state are exactly the
foreign hash surrogate. The hasher state is modelled as the list of values
written so far. -/
def CFType.hashFeed (env : CFEnv) (state : List Nat) (a : Addr) : List Nat :=
  state ++ [CFType.hashSurrogate env a]

/-- The foreign-runtime contract the spec assumes of `equal`/`hash`:
equal objects yield equal hash surrogates. -/
def CFEnv.HashConsistent (env : CFEnv) : Prop :=
  ∀ a b, env.cfEqual a b ≠ 0 → env.cfHash a = env.cfHash b

/-- The foreign-runtime contract that every object compares equal to itself
(true of the foreign `equal` primitive, which the wrapper forwards). -/
def CFEnv.EqualReflexive (env : CFEnv) : Prop :=
  ∀ a, env.cfEqual a a ≠ 0

/-- A concrete environment whose `equal` never holds, witnessing that the
wrapper does not short-circuit on address identity. -/
def envNeverEqual : CFEnv := { cfEqual := fun _ _ => 0, cfHash := fun a => a, cfGetTypeID := fun _ => 0 }

/-- A concrete environment with constant `equal`/`hash`, satisfying the
foreign contracts. -/
def envConstEqual : CFEnv := { cfEqual := fun _ _ => 1, cfHash := fun _ => 42, cfGetTypeID := fun _ => 7 }

/-! ## Claim theorems: Core Foundation wrapper -/

/-- C3: for every retain/clone/drop sequence executable while holding one
initial owning wrapper over a freshly owned object (initial count 1), the
foreign-reported retain count afterwards equals the initial count plus
(#retains + #clones − #drops) — stated without subtraction as
`count + #drops = 1 + #retains + #clones` — and the object is destroyed
exactly when the drops consume the initial ownership plus all retains and
clones (#drops = #retains + #clones + 1). -/
theorem refcount_roundtrip (ops : List RCOp) (hv : validSeq 1 ops = true) :
    CFType.retain_count (runOps ⟨1, false⟩ ops) + nDrops ops
      = 1 + nRetains ops + nClones ops
    ∧ ((runOps ⟨1, false⟩ ops).destroyed
      ↔ nDrops ops = nRetains ops + nClones ops + 1) := by
  have h := runOps_invariant ops 1 1 hv (le_refl 1) (by omega)
  refine ⟨h.1, ?_⟩
  rw [h.2]
  have h1 := h.1
  simp only [CFType.retain_count] at h1 ⊢
  omega

/-- Witness for `refcount_roundtrip`: the spec's scenario — adopt (count 1),
clone (count 2), drop (count 1), drop (count 0, destroyed). -/
theorem refcount_roundtrip_witness :
    validSeq 1 [RCOp.cloneOp, RCOp.dropOp, RCOp.dropOp] = true
    ∧ (CFType.retain_count (runOps ⟨1, false⟩ [RCOp.cloneOp, RCOp.dropOp, RCOp.dropOp])
        + nDrops [RCOp.cloneOp, RCOp.dropOp, RCOp.dropOp]
        = 1 + nRetains [RCOp.cloneOp, RCOp.dropOp, RCOp.dropOp]
          + nClones [RCOp.cloneOp, RCOp.dropOp, RCOp.dropOp]
      ∧ ((runOps ⟨1, false⟩ [RCOp.cloneOp, RCOp.dropOp, RCOp.dropOp]).destroyed
        ↔ nDrops [RCOp.cloneOp, RCOp.dropOp, RCOp.dropOp]
          = nRetains [RCOp.cloneOp, RCOp.dropOp, RCOp.dropOp]
            + nClones [RCOp.cloneOp, RCOp.dropOp, RCOp.dropOp] + 1)) :=
  ⟨by decide, refcount_roundtrip [RCOp.cloneOp, RCOp.dropOp, RCOp.dropOp] (by decide)⟩

/-- C4: `CFType::retain` on a live handle issues exactly one `CFRetain` on
that handle's address (and no other foreign call), returns a wrapper over the
same address, increments that address's count by one, and mutates no other
address's count. -/
theorem retain_one_increment (a : Addr) (counts : Addr → Nat) :
    (CFType.retain a).2 = [CFCall.cfRetain a]
    ∧ (CFType.retain a).1.addr = a
    ∧ applyCalls counts (CFType.retain a).2 a = counts a + 1
    ∧ ∀ b, b ≠ a → applyCalls counts (CFType.retain a).2 b = counts b := by
  refine ⟨rfl, rfl, ?_, ?_⟩
  · simp [CFType.retain, sys.CFRetain, applyCalls, applyCall]
  · intro b hb
    simp [CFType.retain, sys.CFRetain, applyCalls, applyCall, hb]

/-- Witness for `retain_one_increment`: address 5 with counts constantly 2 —
the retained address reports 3, a different address 9 still reports 2. -/
theorem retain_one_increment_witness :
    applyCalls (fun _ => 2) (CFType.retain 5).2 9 = 2 :=
  (retain_one_increment 5 (fun _ => 2)).2.2.2 9 (by decide)

/-- C5: wrapper equality returns true exactly when the foreign `CFEqual`
returns a nonzero value — for every pair of handles, including a pair at the
same address (no address short-circuit, shown by an environment whose `equal`
rejects an address compared with itself) — and the wrapper forwards hashing
and type identity unchanged to `CFHash` and `CFGetTypeID`. -/
theorem eq_delegates_to_CFEqual (env : CFEnv) (a b : Addr) :
    (CFType.eq env a b = true ↔ env.cfEqual a b ≠ 0)
    ∧ (CFType.eq env a a = true ↔ env.cfEqual a a ≠ 0)
    ∧ CFType.eq envNeverEqual 7 7 = false
    ∧ CFType.hashSurrogate env a = env.cfHash a
    ∧ CFType.get_type_id env a = env.cfGetTypeID a := by
  refine ⟨?_, ?_, by decide, rfl, rfl⟩
  · simp [CFType.eq]
  · simp [CFType.eq]

/-- C6: under the foreign-runtime contracts (equal objects have equal hash
surrogates; every object equals itself), whenever two wrappers compare equal
they feed the same surrogate to the hasher — so any hasher state is extended
identically — and every wrapper equals itself. -/
theorem hash_consistent_and_eq_refl (env : CFEnv)
    (hc : CFEnv.HashConsistent env) (hr : CFEnv.EqualReflexive env)
    (a b : Addr) (heq : CFType.eq env a b = true) :
    (∀ state : List Nat, CFType.hashFeed env state a = CFType.hashFeed env state b)
    ∧ CFType.eq env a a = true := by
  constructor
  · intro state
    have h0 : env.cfEqual a b ≠ 0 := by
      simpa [CFType.eq] using heq
    simp [CFType.hashFeed, CFType.hashSurrogate, hc a b h0]
  · simp [CFType.eq, hr a]

/-- Witness for `hash_consistent_and_eq_refl`: the constant environment, with
the contracts discharged, at addresses 3 and 5. -/
theorem hash_consistent_and_eq_refl_witness :
    CFType.hashFeed envConstEqual [] 3 = CFType.hashFeed envConstEqual [] 5
    ∧ CFType.eq envConstEqual 3 3 = true :=
  ⟨(hash_consistent_and_eq_refl envConstEqual (fun _ _ _ => rfl)
      (fun _ => Nat.one_ne_zero) 3 5 (by decide)).1 [],
   (hash_consistent_and_eq_refl envConstEqual (fun _ _ _ => rfl)
      (fun _ => Nat.one_ne_zero) 3 5 (by decide)).2⟩

/-! ## The capability-probed dispatcher (`NSErrorRecoveryAttempting`) -/

/-- The Objective-C foreign runtime environment: `respondsToSelector:` (the
capability probe) and the result the foreign `objc_msgSend` would produce for
the synchronous recovery message (a `BOOL`, relayed unchanged). Both are pure
with respect to one call: the trace records what was invoked. -/
structure ObjCEnv where
  respondsTo : Addr → Sel → Bool
  sendSyncResult : Addr → Sel → Addr → Nat → Bool

/-- One observable foreign interaction of a dispatcher call: a
`respondsToSelector:` probe with its result, a synchronous message send with
its arguments, or a notifying message send carrying the notification triple
(delegate, completion selector, opaque context pointer value). -/
inductive ObjCEvent where
  | probed (target : Addr) (sel : Sel) (result : Bool)
  | sentSync (target : Addr) (sel : Sel) (error : Addr) (idx : Nat)
  | sentNotify (target : Addr) (sel : Sel) (error : Addr) (idx : Nat)
      (delegate : Option Addr) (didRecover : Option Sel) (ctx : Nat)
  deriving DecidableEq, Repr

/-- The selector `attemptRecoveryFromError:optionIndex:`
(recovery_attempting.rs:54). -/
def attemptRecoverySel : Sel := "attemptRecoveryFromError:optionIndex:"

/-- The selector
`attemptRecoveryFromError:optionIndex:delegate:didRecoverSelector:contextInfo:`
(recovery_attempting.rs:82-88). -/
def attemptRecoveryWithSel : Sel :=
  "attemptRecoveryFromError:optionIndex:delegate:didRecoverSelector:contextInfo:"

/-- Source `NSErrorRecoveryAttempting::attempt_recovery` (recovery_attempting.rs:51-67):
probe `responds_to_selector(sel)` on `&self.0`; if it fails return `false`;
otherwise send the message with `(error, recovery_option_index)` and relay the
`BOOL` result. Returns the result together with the foreign-call trace. -/
def NSErrorRecoveryAttempting.attempt_recovery (env : ObjCEnv) (self error : Addr)
    (recovery_option_index : Nat) : Bool × List ObjCEvent :=
  let sel := attemptRecoverySel
  if !env.respondsTo self sel then
    (false, [ObjCEvent.probed self sel false])
  else
    (env.sendSyncResult self sel error recovery_option_index,
     [ObjCEvent.probed self sel true,
      ObjCEvent.sentSync self sel error recovery_option_index])

/-- Source `NSErrorRecoveryAttempting::attempt_recovery_with`
(recovery_attempting.rs:72-110): probe `responds_to_selector(sel)` on
`&self.0`; if it fails return with nothing done; otherwise send the message
with `(error, recovery_option_index, delegate, did_recover_selector,
context_info)`. The result is the foreign-call trace (the Rust function
returns `()`). -/
def NSErrorRecoveryAttempting.attempt_recovery_with (env : ObjCEnv) (self error : Addr)
    (recovery_option_index : Nat) (delegate : Option Addr)
    (did_recover_selector : Option Sel) (context_info : Nat) : List ObjCEvent :=
  let sel := attemptRecoveryWithSel
  if !env.respondsTo self sel then
    [ObjCEvent.probed self sel false]
  else
    [ObjCEvent.probed self sel true,
     ObjCEvent.sentNotify self sel error recovery_option_index delegate
       did_recover_selector context_info]

/-- The message sends contained in a trace (every event that is not a probe). -/
def sends (evts : List ObjCEvent) : List ObjCEvent :=
  evts.filter fun e =>
    match e with
    | ObjCEvent.probed _ _ _ => false
    | _ => true

/-- The notification triples a trace registers with the foreign runtime. -/
def registrations (evts : List ObjCEvent) : List (Option Addr × Option Sel × Nat) :=
  evts.filterMap fun e =>
    match e with
    | ObjCEvent.sentNotify _ _ _ _ d s c => some (d, s, c)
    | _ => none

/-- Every send in the trace is preceded by a successful probe of the same
target and selector (`seen` accumulates the successful probes so far). -/
def guardOk (seen : List (Addr × Sel)) : List ObjCEvent → Bool
  | [] => true
  | ObjCEvent.probed t s true :: rest => guardOk ((t, s) :: seen) rest
  | ObjCEvent.probed _ _ false :: rest => guardOk seen rest
  | ObjCEvent.sentSync t s _ _ :: rest => decide ((t, s) ∈ seen) && guardOk seen rest
  | ObjCEvent.sentNotify t s _ _ _ _ _ :: rest => decide ((t, s) ∈ seen) && guardOk seen rest

/-- Modelled from the spec: the foreign runtime, once the out-of-band
operation finishes, invokes the registered completion selector on the
registered delegate "passing back `context` unchanged" — delivery hands the
delegate exactly the context component of the registered triple. -/
def foreignDeliverContext (triple : Option Addr × Option Sel × Nat) : Nat :=
  triple.2.2

/-- An environment in which no target responds to any selector. -/
def envRespondsNone : ObjCEnv :=
  { respondsTo := fun _ _ => false, sendSyncResult := fun _ _ _ _ => true }

/-- An environment in which every target responds to every selector. -/
def envRespondsAll : ObjCEnv :=
  { respondsTo := fun _ _ => true, sendSyncResult := fun _ _ _ _ => true }

/-! ## Claim theorems: capability-probed dispatcher -/

/-- C1 counterexample: the "unsupported" result of `attempt_recovery` is not
a caller-specified default. At a concrete unsupported call the result is
`false` and cannot be the caller-designated value `true`: no parameter of the
call lets the caller choose the unsupported result. -/
theorem attempt_recovery_default_not_caller_specified :
    (NSErrorRecoveryAttempting.attempt_recovery envRespondsNone 0 1 2).1 ≠ true := by
  decide

/-- C1 (amended): for every target, error, and recovery-option index for which
`responds_to_selector` returns false, `attempt_recovery` performs no
underlying foreign message send and returns the fixed "unsupported" result
`false` (not a caller-specified default). -/
theorem attempt_recovery_unsupported (env : ObjCEnv) (self error : Addr)
    (idx : Nat) (h : env.respondsTo self attemptRecoverySel = false) :
    (NSErrorRecoveryAttempting.attempt_recovery env self error idx).1 = false
    ∧ sends (NSErrorRecoveryAttempting.attempt_recovery env self error idx).2 = [] := by
  simp [NSErrorRecoveryAttempting.attempt_recovery, h, sends]

/-- Witness for `attempt_recovery_unsupported`: the responds-to-nothing
environment at target 3, error 4, option index 5. -/
theorem attempt_recovery_unsupported_witness :
    (NSErrorRecoveryAttempting.attempt_recovery envRespondsNone 3 4 5).1 = false
    ∧ sends (NSErrorRecoveryAttempting.attempt_recovery envRespondsNone 3 4 5).2 = [] :=
  attempt_recovery_unsupported envRespondsNone 3 4 5 rfl

/-- C2: for every target for which the probe fails, `attempt_recovery_with`
produces only the failed probe in its trace — hence no foreign message send
and no registered notification triple — and returns normally (its trace is
exactly the failed probe; the Rust function returns `()` on this path). -/
theorem attempt_recovery_with_unsupported (env : ObjCEnv) (self error : Addr)
    (idx : Nat) (delegate : Option Addr) (drs : Option Sel) (ctx : Nat)
    (h : env.respondsTo self attemptRecoveryWithSel = false) :
    NSErrorRecoveryAttempting.attempt_recovery_with env self error idx delegate drs ctx
      = [ObjCEvent.probed self attemptRecoveryWithSel false]
    ∧ sends (NSErrorRecoveryAttempting.attempt_recovery_with env self error idx
        delegate drs ctx) = []
    ∧ registrations (NSErrorRecoveryAttempting.attempt_recovery_with env self error idx
        delegate drs ctx) = [] := by
  simp [NSErrorRecoveryAttempting.attempt_recovery_with, h, sends, registrations]

/-- Witness for `attempt_recovery_with_unsupported`: the responds-to-nothing
environment with a fully populated notification triple. -/
theorem attempt_recovery_with_unsupported_witness :
    NSErrorRecoveryAttempting.attempt_recovery_with envRespondsNone 1 2 3
        (some 9) (some "didRecover:") 77
      = [ObjCEvent.probed 1 attemptRecoveryWithSel false]
    ∧ sends (NSErrorRecoveryAttempting.attempt_recovery_with envRespondsNone 1 2 3
        (some 9) (some "didRecover:") 77) = []
    ∧ registrations (NSErrorRecoveryAttempting.attempt_recovery_with envRespondsNone 1 2 3
        (some 9) (some "didRecover:") 77) = [] :=
  attempt_recovery_with_unsupported envRespondsNone 1 2 3 (some 9) (some "didRecover:") 77 rfl

/-- C7: in every call to either dispatch operation, each message send in the
produced trace is preceded by a successful probe of the same target and
selector — no send happens without a preceding successful probe within the
same call. -/
theorem probe_before_send (env : ObjCEnv) (self error : Addr) (idx : Nat)
    (delegate : Option Addr) (drs : Option Sel) (ctx : Nat) :
    guardOk [] (NSErrorRecoveryAttempting.attempt_recovery env self error idx).2 = true
    ∧ guardOk [] (NSErrorRecoveryAttempting.attempt_recovery_with env self error idx
        delegate drs ctx) = true := by
  constructor
  · by_cases h : env.respondsTo self attemptRecoverySel
    · simp [NSErrorRecoveryAttempting.attempt_recovery, h, guardOk]
    · simp [NSErrorRecoveryAttempting.attempt_recovery,
        Bool.eq_false_iff.mpr h, guardOk]
  · by_cases h : env.respondsTo self attemptRecoveryWithSel
    · simp [NSErrorRecoveryAttempting.attempt_recovery_with, h, guardOk]
    · simp [NSErrorRecoveryAttempting.attempt_recovery_with,
        Bool.eq_false_iff.mpr h, guardOk]

/-- C8: when the probe succeeds, `attempt_recovery_with` forwards the
delegate, completion selector, and opaque context to the foreign send
unchanged — the trace registers exactly the caller's triple — and the
spec-modelled foreign delivery hands back exactly that registered context. -/
theorem notify_forwards_triple_unchanged (env : ObjCEnv) (self error : Addr)
    (idx : Nat) (delegate : Option Addr) (drs : Option Sel) (ctx : Nat)
    (h : env.respondsTo self attemptRecoveryWithSel = true) :
    NSErrorRecoveryAttempting.attempt_recovery_with env self error idx delegate drs ctx
      = [ObjCEvent.probed self attemptRecoveryWithSel true,
         ObjCEvent.sentNotify self attemptRecoveryWithSel error idx delegate drs ctx]
    ∧ registrations (NSErrorRecoveryAttempting.attempt_recovery_with env self error idx
        delegate drs ctx) = [(delegate, drs, ctx)]
    ∧ foreignDeliverContext (delegate, drs, ctx) = ctx := by
  refine ⟨?_, ?_, rfl⟩
  · simp [NSErrorRecoveryAttempting.attempt_recovery_with, h]
  · simp [NSErrorRecoveryAttempting.attempt_recovery_with, h, registrations]

/-- Witness for `notify_forwards_triple_unchanged`: the responds-to-everything
environment, delegate 9, completion selector "didRecover:", context 77. -/
theorem notify_forwards_triple_unchanged_witness :
    registrations (NSErrorRecoveryAttempting.attempt_recovery_with envRespondsAll 1 2 3
        (some 9) (some "didRecover:") 77) = [(some 9, some "didRecover:", 77)] :=
  (notify_forwards_triple_unchanged envRespondsAll 1 2 3
    (some 9) (some "didRecover:") 77 rfl).2.1

/-- C10: the unsupported result of `attempt_recovery` is the fixed value
`false`: for every environment, target, error, and option index with a failed
probe — in particular whatever default a caller might wish for — the returned
value is `false`. -/
theorem attempt_recovery_unsupported_fixed_false (env : ObjCEnv)
    (self error : Addr) (idx : Nat)
    (h : env.respondsTo self attemptRecoverySel = false) :
    (NSErrorRecoveryAttempting.attempt_recovery env self error idx).1 = false := by
  simp [NSErrorRecoveryAttempting.attempt_recovery, h]

/-- Witness for `attempt_recovery_unsupported_fixed_false`: the
responds-to-nothing environment at target 8, error 6, option index 0. -/
theorem attempt_recovery_unsupported_fixed_false_witness :
    (NSErrorRecoveryAttempting.attempt_recovery envRespondsNone 8 6 0).1 = false :=
  attempt_recovery_unsupported_fixed_false envRespondsNone 8 6 0 rfl
